import Mathlib

/-!
Shallow embedding of the concurrent-production-and-assembly subsystem of the
repository (src/domain/production.py, src/src/domain/production.py,
src/src/domain/assembly.py).

Modelling conventions:
* `async_retry` (src/domain/production.py, lines 48-65) is modelled as a
  function from an attempt-indexed operation oracle `op : Nat → Except E A`
  (attempt `i` of the Python loop calls `op i`) to a `RetryRun` recording the
  outcome, the number of invocations of the wrapped operation, and the list of
  backoff sleeps performed, in order.  `raise last_exception` with
  `last_exception = None` (which Python turns into a `TypeError`) is the
  `RetryResult.typeError` outcome.
* `produce_assets` (src/src/domain/production.py, lines 29-70) is split into
  the fan-out (building the submission-order results list, one entry per
  scene, via `process_scene`) and the fan-in `produce_collect`
  (lines 52-70: partition the gathered results, log the failures, sort the
  successes by `scene_id`, build the manifest).  `asyncio.gather` with
  `return_exceptions=True` delivers one `Except` per scene; the per-scene
  outcome of the two inner generation calls is supplied by oracles.  The
  returned pair is (manifest, list of logged failures).
* `assemble_video` (src/src/domain/assembly.py, lines 65-108) together with
  `_render_sync` (lines 110-183) is modelled with oracles for the per-asset
  moviepy clip composition (`compose`), for `write_videofile` (`write`) and
  for `os.path.getsize` (`getsize`); moviepy itself is an opaque external
  collaborator.  The result carries a trace recording whether the render
  worker was dispatched and whether the output file was written.
Durations, delays and file sizes are modelled over `ℚ` (Python floats are
treated as exact rationals; all concrete values in the claims are exactly
representable).
-/

namespace ZpUicSf

/-- An error raised by an external generation call (`GenerationError` kind:
the code retries and stores arbitrary `Exception`s; only the message is
relevant to the model). -/
structure GenError where
  msg : String
deriving Repr, DecidableEq

/-- Outcome of a call wrapped by `async_retry`: a returned value, a re-raised
last exception, or the `TypeError` that `raise None` produces when the loop
body never ran. -/
inductive RetryResult (E A : Type) where
  | success : A → RetryResult E A
  | failure : E → RetryResult E A
  | typeError : RetryResult E A
deriving Repr, DecidableEq

/-- Observable behaviour of one wrapped call: final outcome, number of
invocations of the underlying operation, and the backoff sleeps (in seconds,
in order) performed by `await asyncio.sleep(delay * (attempt + 1))`. -/
structure RetryRun (E A : Type) where
  result : RetryResult E A
  calls : Nat
  sleeps : List ℚ
deriving Repr, DecidableEq

/-- The `for attempt in range(max_retries)` loop of `async_retry`
(src/domain/production.py lines 52-61): `attempts` is the list of remaining
loop indices, `last_exception` the accumulator.  On success the function
returns at once; on an exception it records the sleep `delay * (attempt + 1)`
and continues; when the loop ends it re-raises `last_exception` (a `None`
there is Python's `TypeError`). -/
def retryGo {E A : Type} (op : Nat → Except E A) (delay : ℚ) :
    List Nat → Option E → RetryRun E A
  | [], some e => ⟨.failure e, 0, []⟩
  | [], none => ⟨.typeError, 0, []⟩
  | attempt :: rest, last_exception =>
    match op attempt with
    | .ok a => ⟨.success a, 1, []⟩
    | .error e =>
      let r := retryGo op delay rest (some e)
      ⟨r.result, r.calls + 1, delay * ((attempt + 1 : Nat) : ℚ) :: r.sleeps⟩

/-- `async_retry(max_retries, delay)` applied to an operation, as the run of
the wrapper (src/domain/production.py lines 48-65).  Defaults mirror the
source: `max_retries = 3`, `delay = 2.0`. -/
def async_retry {E A : Type} (max_retries : Nat) (delay : ℚ)
    (op : Nat → Except E A) : RetryRun E A :=
  retryGo op delay (List.range max_retries) none

/-- `CreativeScene` (src/src/domain/models.py lines 103-110); only the fields
read by the production stage are modelled. -/
structure CreativeScene where
  id : Nat
  narration : String
  visual_description : String
deriving Repr, DecidableEq

/-- `CreativeBlueprint` (src/src/domain/models.py lines 113-118). -/
structure CreativeBlueprint where
  topic_id : String
  title : String
  scenes : List CreativeScene
deriving Repr, DecidableEq

/-- `AssetPath` (src/src/domain/models.py lines 121-126). -/
structure AssetPath where
  scene_id : Nat
  image_path : String
  audio_path : String
  duration : ℚ
deriving Repr, DecidableEq

/-- `ProductionManifest` (src/src/domain/models.py lines 129-133). -/
structure ProductionManifest where
  topic_id : String
  base_dir : String
  assets : List AssetPath
deriving Repr, DecidableEq

/-- Python's `f"{n:03d}"` zero-padding used for asset file names. -/
def format03 (n : Nat) : String :=
  if n < 10 then "00" ++ toString n
  else if n < 100 then "0" ++ toString n
  else toString n

/-- `ContentProducer._process_scene` (src/src/domain/production.py lines
72-106): the two generation calls run under `asyncio.gather` without
`return_exceptions`, so the task yields an `AssetPath` exactly when both
succeed, and fails with one of the raised errors otherwise (which of the two
surfaces when both fail depends on timing; the claims do not depend on the
choice, the model surfaces the voice error first).  `duration` is the value
returned by the voice call. -/
def process_scene (scene : CreativeScene) (topic_dir : String)
    (voiceResult : Except GenError ℚ) (imageResult : Except GenError String) :
    Except GenError AssetPath :=
  let img_path := topic_dir ++ "/images/" ++ format03 scene.id ++ ".jpg"
  let aud_path := topic_dir ++ "/audio/" ++ format03 scene.id ++ ".mp3"
  match voiceResult, imageResult with
  | .ok duration, .ok _ =>
    .ok { scene_id := scene.id, image_path := img_path,
          audio_path := aud_path, duration := duration }
  | .error e, _ => .error e
  | .ok _, .error e => .error e

/-- The result-collection loop of `produce_assets` (src/src/domain/production.py
lines 52-58): walk the gathered results, keeping successes in order in
`valid_assets` and logging each exception.  Returns
(valid_assets, logged failures). -/
def partition_results : List (Except GenError AssetPath) →
    List AssetPath × List GenError
  | [] => ([], [])
  | .ok a :: rest =>
    let p := partition_results rest
    (a :: p.1, p.2)
  | .error e :: rest =>
    let p := partition_results rest
    (p.1, e :: p.2)

/-- Fan-in of `produce_assets` (src/src/domain/production.py lines 52-70):
partition the gathered results, sort the successes ascending by `scene_id`
(`valid_assets.sort(key=lambda x: x.scene_id)`, a stable sort), and build the
`ProductionManifest`.  Second component: the failures logged by the loop. -/
def produce_collect (bp : CreativeBlueprint) (topic_dir : String)
    (results : List (Except GenError AssetPath)) :
    ProductionManifest × List GenError :=
  let p := partition_results results
  let valid_assets := p.1.mergeSort (fun a b => decide (a.scene_id ≤ b.scene_id))
  ({ topic_id := bp.topic_id, base_dir := topic_dir, assets := valid_assets },
   p.2)

/-- `ContentProducer.produce_assets` (src/src/domain/production.py lines
29-70): one task per scene in blueprint order, gathered with
`return_exceptions=True` (which returns the per-task outcomes in submission
order, regardless of completion order), then the fan-in `produce_collect`.
The per-scene generation outcomes are supplied by oracles. -/
def produce_assets (bp : CreativeBlueprint) (base_dir : String)
    (voiceOutcome : CreativeScene → Except GenError ℚ)
    (imageOutcome : CreativeScene → Except GenError String) :
    ProductionManifest × List GenError :=
  let topic_dir := base_dir ++ "/" ++ bp.topic_id
  let results := bp.scenes.map
    (fun s => process_scene s topic_dir (voiceOutcome s) (imageOutcome s))
  produce_collect bp topic_dir results

/-- `VideoOutput` (src/src/domain/assembly.py lines 37-44): note the size
field is `file_size_mb`, megabytes, not bytes. -/
structure VideoOutput where
  topic_id : String
  file_path : String
  duration : ℚ
  file_size_mb : ℚ
deriving Repr, DecidableEq

/-- Errors raised inside `_render_sync`: `RuntimeError("No valid clips
created.")` when every per-asset composition failed, or a failure of
`write_videofile`. -/
inductive RenderError where
  | noValidClips : RenderError
  | writeFailed : RenderError
deriving Repr, DecidableEq

/-- Errors surfaced by `assemble_video`: `ValueError("Empty asset list")`
(the spec's `EmptyManifestError` kind) on an empty manifest, or a re-raised
render failure. -/
inductive AssemblyError where
  | emptyManifest : AssemblyError
  | renderFailed : RenderError → AssemblyError
deriving Repr, DecidableEq

/-- Observable side effects of one `assemble_video` call: whether the render
worker was dispatched (`run_in_executor` reached) and whether
`write_videofile` completed an output file. -/
structure AssembleTrace where
  render_dispatched : Bool
  file_written : Bool
deriving Repr, DecidableEq

/-- `VideoAssembler._render_sync` (src/src/domain/assembly.py lines 110-183):
per-asset clip composition failures are skipped (`compose a = false`); if no
clip survives, raise `RuntimeError("No valid clips created.")`; otherwise
concatenate and write the file (outcome of `write_videofile` given by
`write`).  Returns the outcome together with whether the file was written. -/
def render_sync (m : ProductionManifest) (output_path : String)
    (compose : AssetPath → Bool) (write : Bool) :
    Except RenderError String × Bool :=
  let clips := m.assets.filter compose
  if clips.isEmpty then (.error .noValidClips, false)
  else if write then (.ok output_path, true)
  else (.error .writeFailed, false)

/-- `VideoAssembler.assemble_video` (src/src/domain/assembly.py lines
65-108): reject an empty manifest with `ValueError("Empty asset list")`
before dispatching any render work; otherwise run `_render_sync` on the
single-slot executor and, on success, build the `VideoOutput` with
`file_size_mb = os.path.getsize(result_path) / (1024 * 1024)` and
`duration = sum(a.duration for a in manifest.assets)`. -/
def assemble_video (output_dir : String) (m : ProductionManifest)
    (compose : AssetPath → Bool) (write : Bool) (getsize : String → Nat) :
    Except AssemblyError VideoOutput × AssembleTrace :=
  let output_path := output_dir ++ "/" ++ m.topic_id ++ "_final.mp4"
  if m.assets.isEmpty then
    (.error .emptyManifest, ⟨false, false⟩)
  else
    match render_sync m output_path compose write with
    | (.error e, w) => (.error (.renderFailed e), ⟨true, w⟩)
    | (.ok result_path, w) =>
      let file_size : ℚ := ((getsize result_path : ℚ)) / (1024 * 1024)
      let total_duration : ℚ := (m.assets.map (fun a => a.duration)).sum
      (.ok { topic_id := m.topic_id, file_path := result_path,
             duration := total_duration, file_size_mb := file_size },
       ⟨true, w⟩)

/-! ### Helper lemmas for the retry wrapper -/

/-- Unfolding lemma for one iteration of the retry loop. -/
theorem retryGo_cons {E A : Type} (op : Nat → Except E A) (d : ℚ)
    (attempt : Nat) (rest : List Nat) (last : Option E) :
    retryGo op d (attempt :: rest) last =
      match op attempt with
      | .ok a => ⟨.success a, 1, []⟩
      | .error e =>
        let r := retryGo op d rest (some e)
        ⟨r.result, r.calls + 1, d * ((attempt + 1 : Nat) : ℚ) :: r.sleeps⟩ := rfl

/-- Run of the retry loop over attempt indices `a, a+1, ..., a+n-1` when every
attempt fails: all `n` attempts are invoked, every failed attempt `a+j` is
followed by the sleep `d * (a+j+1)`, and the final outcome re-raises the
exception of the last attempt. -/
theorem retryGo_allfail {E A : Type} (op : Nat → Except E A) (d : ℚ)
    (errs : Nat → E) :
    ∀ (n a : Nat), 0 < n → (∀ i, a ≤ i → i < a + n → op i = .error (errs i)) →
    ∀ last, retryGo op d (List.range' a n) last =
      ⟨.failure (errs (a + n - 1)), n,
       (List.range' a n).map (fun i => d * ((i + 1 : Nat) : ℚ))⟩ := by
  intro n
  induction n with
  | zero => intro a h; omega
  | succ m ih =>
    intro a _ hfail last
    have hopa : op a = .error (errs a) := hfail a le_rfl (by omega)
    cases m with
    | zero =>
      simp [List.range'_succ, retryGo, hopa, List.range']
    | succ m' =>
      have hrec := ih (a + 1) (by omega)
        (fun i h1 h2 => hfail i (by omega) (by omega)) (some (errs a))
      have hidx : a + 1 + (m' + 1) - 1 = a + (m' + 1 + 1) - 1 := by omega
      rw [List.range'_succ, retryGo_cons]
      simp only [hopa, hrec, hidx, List.map_cons]

/-- Run of the retry loop over attempt indices `a, ..., a+n+m` when attempts
`a, ..., a+n-1` fail and attempt `a+n` succeeds with `v`: exactly `n+1`
invocations happen and the wrapped value is returned. -/
theorem retryGo_succeeds {E A : Type} (op : Nat → Except E A) (d : ℚ)
    (errs : Nat → E) (v : A) :
    ∀ (n a m : Nat), (∀ i, a ≤ i → i < a + n → op i = .error (errs i)) →
    op (a + n) = .ok v → ∀ last,
    retryGo op d (List.range' a (n + 1 + m)) last =
      ⟨.success v, n + 1,
       (List.range' a n).map (fun i => d * ((i + 1 : Nat) : ℚ))⟩ := by
  intro n
  induction n with
  | zero =>
    intro a m _ hsucc last
    have : a + 0 = a := rfl
    rw [show (0 + 1 + m) = m + 1 by omega, List.range'_succ]
    simp [retryGo, this ▸ hsucc, List.range']
  | succ n' ih =>
    intro a m hfail hsucc last
    have hopa : op a = .error (errs a) := hfail a le_rfl (by omega)
    have hrec := ih (a + 1) m
      (fun i h1 h2 => hfail i (by omega) (by omega))
      (by rw [show a + 1 + n' = a + (n' + 1) by omega]; exact hsucc)
      (some (errs a))
    rw [show (n' + 1 + 1 + m) = (n' + 1 + m) + 1 by omega, List.range'_succ]
    simp only [retryGo, hopa, hrec, List.range'_succ, List.map_cons]

/-! ### Claim theorems for the retry wrapper -/

/-- C4: for every operation wrapped by `async_retry` with maximum attempts
`M` and every `k ≤ M`, if the operation fails on attempts `1..(k-1)` and
succeeds on attempt `k`, the wrapped call invokes the operation exactly `k`
times and returns the operation's successful result. -/
theorem async_retry_success_after_k_attempts {E A : Type}
    (op : Nat → Except E A) (M k : Nat) (d : ℚ) (errs : Nat → E) (v : A)
    (hk1 : 1 ≤ k) (hkM : k ≤ M)
    (hfail : ∀ i, i + 1 < k → op i = .error (errs i))
    (hsucc : op (k - 1) = .ok v) :
    (async_retry M d op).calls = k ∧
    (async_retry M d op).result = .success v := by
  have hr : List.range M = List.range' 0 ((k - 1) + 1 + (M - k)) := by
    rw [show (k - 1) + 1 + (M - k) = M by omega, List.range_eq_range']
  have h := retryGo_succeeds op d errs v (k - 1) 0 (M - k)
    (fun i h1 h2 => hfail i (by omega)) (by simpa using hsucc) none
  simp only [async_retry, hr, h]
  exact ⟨by omega, trivial⟩

/-- Witness for C4 at `M = 3`, `k = 3`: an operation failing twice then
succeeding with `42` is invoked three times and returns `42`. -/
theorem async_retry_success_after_k_attempts_witness :
    (async_retry 3 2 (fun i => if i < 2 then Except.error (GenError.mk "boom")
      else Except.ok (42 : Nat))).calls = 3 ∧
    (async_retry 3 2 (fun i => if i < 2 then Except.error (GenError.mk "boom")
      else Except.ok (42 : Nat))).result = .success 42 :=
  async_retry_success_after_k_attempts _ 3 3 2 (fun _ => GenError.mk "boom") 42
    (by decide) (by decide)
    (by intro i hi
        have hi2 : i < 2 := by omega
        interval_cases i <;> rfl)
    rfl

/-- C5: a wrapped call whose operation fails on every one of its `M ≥ 1`
attempts invokes the operation exactly `M` times, sleeps `d * i` after the
`i`-th failed attempt (linear backoff), and finally re-raises the exception
of attempt `M` unchanged. -/
theorem async_retry_allfail {E A : Type} (op : Nat → Except E A) (M : Nat)
    (d : ℚ) (errs : Nat → E) (hM : 1 ≤ M)
    (hfail : ∀ i, i < M → op i = .error (errs i)) :
    async_retry M d op =
      ⟨.failure (errs (M - 1)), M,
       (List.range M).map (fun i => d * ((i + 1 : Nat) : ℚ))⟩ := by
  have h := retryGo_allfail op d errs M 0 (by omega)
    (fun i h1 h2 => hfail i (by omega)) none
  simp only [async_retry, List.range_eq_range', h, Nat.zero_add]

/-- Witness for C5 at `M = 2`, `d = 3`: both attempts fail, the run makes two
calls, sleeps 3 then 6 seconds, and re-raises the second attempt's error. -/
theorem async_retry_allfail_witness :
    async_retry 2 3
      (fun i => (Except.error (GenError.mk (toString i)) : Except GenError Nat)) =
      ⟨.failure (GenError.mk "1"), 2, [3, 6]⟩ :=
  (async_retry_allfail
    (fun i => (Except.error (GenError.mk (toString i)) : Except GenError Nat))
    2 3 (fun i => GenError.mk (toString i)) (by decide) (fun i _ => rfl)).trans
    (by norm_num [List.range_succ]
        rfl)

/-- C10: `async_retry` instantiated with `max_retries = 0` never invokes the
underlying operation and yields neither a result nor an operation failure:
the loop body never runs, `last_exception` stays `None`, and
`raise last_exception` raises a `TypeError`. -/
theorem async_retry_zero_attempts {E A : Type} (d : ℚ)
    (op : Nat → Except E A) :
    async_retry 0 d op = ⟨.typeError, 0, []⟩ := rfl

/-! ### Helper lemmas for the concurrent producer -/

/-- `Except.toOption` inverts to `Except.ok`. -/
theorem except_toOption_eq_some {ε α : Type} {x : Except ε α} {a : α} :
    x.toOption = some a ↔ x = .ok a := by
  cases x <;> simp [Except.toOption]

/-- A successful scene task carries the scene's own id. -/
theorem process_scene_ok_id (scene : CreativeScene) (dir : String)
    (vo : Except GenError ℚ) (io : Except GenError String) (a : AssetPath)
    (h : process_scene scene dir vo io = .ok a) : a.scene_id = scene.id := by
  cases vo with
  | error e => simp [process_scene] at h
  | ok q =>
    cases io with
    | error e => simp [process_scene] at h
    | ok p =>
      simp only [process_scene, Except.ok.injEq] at h
      rw [← h]

/-- A scene one of whose generation calls failed never yields an asset. -/
theorem process_scene_not_ok_of_error (scene : CreativeScene) (dir : String)
    (vo : Except GenError ℚ) (io : Except GenError String)
    (h : (∃ e, vo = .error e) ∨ (∃ e, io = .error e)) (a : AssetPath) :
    process_scene scene dir vo io ≠ .ok a := by
  intro hok
  rcases h with ⟨e, he⟩ | ⟨e, he⟩
  · subst he; simp [process_scene] at hok
  · subst he; cases vo <;> simp [process_scene] at hok

/-- The successes collected by the result loop, in input order. -/
theorem partition_results_fst (rs : List (Except GenError AssetPath)) :
    (partition_results rs).1 = rs.filterMap Except.toOption := by
  induction rs with
  | nil => rfl
  | cons r rest ih =>
    cases r <;> simp [partition_results, Except.toOption, List.filterMap_cons, ih]

/-- The failures logged by the result loop, in input order. -/
theorem partition_results_snd (rs : List (Except GenError AssetPath)) :
    (partition_results rs).2 = rs.filterMap
      (fun r => match r with | .ok _ => none | .error e => some e) := by
  induction rs with
  | nil => rfl
  | cons r rest ih =>
    cases r <;> simp [partition_results, List.filterMap_cons, ih]

/-- The loop splits every gathered result into a success or a logged failure. -/
theorem partition_results_length (rs : List (Except GenError AssetPath)) :
    (partition_results rs).1.length + (partition_results rs).2.length =
      rs.length := by
  induction rs with
  | nil => rfl
  | cons r rest ih =>
    cases r <;> simp [partition_results] <;> omega

/-- In submission order, the scene ids of the successful tasks form a
subsequence of the blueprint's scene ids. -/
theorem keys_filterMap_sublist (scenes : List CreativeScene) (dir : String)
    (vo : CreativeScene → Except GenError ℚ)
    (io : CreativeScene → Except GenError String) :
    (((scenes.map (fun s => process_scene s dir (vo s) (io s))).filterMap
        Except.toOption).map (fun a => a.scene_id)).Sublist
      (scenes.map (fun s => s.id)) := by
  induction scenes with
  | nil => simp
  | cons s rest ih =>
    simp only [List.map_cons, List.filterMap_cons]
    cases h : Except.toOption (process_scene s dir (vo s) (io s)) with
    | none => exact ih.cons _
    | some a =>
      have hid : a.scene_id = s.id :=
        process_scene_ok_id s dir (vo s) (io s) a (except_toOption_eq_some.mp h)
      simp only [List.map_cons, hid]
      exact ih.cons₂ _

/-- In submission order, the scene ids of the successful tasks are exactly the
ids of the scenes whose task succeeded, in blueprint order. -/
theorem keys_filterMap_eq_filter (scenes : List CreativeScene) (dir : String)
    (vo : CreativeScene → Except GenError ℚ)
    (io : CreativeScene → Except GenError String) :
    ((scenes.map (fun s => process_scene s dir (vo s) (io s))).filterMap
        Except.toOption).map (fun a => a.scene_id) =
    (scenes.filter
        (fun s => (process_scene s dir (vo s) (io s)).toOption.isSome)).map
      (fun s => s.id) := by
  induction scenes with
  | nil => rfl
  | cons s rest ih =>
    simp only [List.map_cons, List.filterMap_cons, List.filter_cons]
    cases h : Except.toOption (process_scene s dir (vo s) (io s)) with
    | none => simpa [h] using ih
    | some a =>
      have hid : a.scene_id = s.id :=
        process_scene_ok_id s dir (vo s) (io s) a (except_toOption_eq_some.mp h)
      rw [List.map_cons, hid, ih]
      simp

/-- For strictly ascending `Nat` lists, containment upgrades to subsequence. -/
theorem sublist_of_subset_of_pairwise_lt {l₁ l₂ : List Nat}
    (h₁ : l₁.Pairwise (· < ·)) (h₂ : l₂.Pairwise (· < ·)) (hs : l₁ ⊆ l₂) :
    l₁.Sublist l₂ := by
  have hnd : l₁.Nodup := h₁.imp Nat.ne_of_lt
  have hs₁ : l₁.Sorted (· ≤ ·) := h₁.imp Nat.le_of_lt
  have hs₂ : l₂.Sorted (· ≤ ·) := h₂.imp Nat.le_of_lt
  exact List.sublist_of_subperm_of_sorted (hnd.subperm hs) hs₁ hs₂

/-! ### Claim theorems for the concurrent producer -/

/-- C1: for every blueprint with strictly ascending scene ids, every pattern
of per-scene generation successes and failures, and every completion order of
the concurrent tasks (modelled as an arbitrary permutation of the gathered
per-scene results reaching the fan-in), the manifest built by
`produce_collect` has its assets strictly sorted ascending by `scene_id`, the
scene-id sequence is a subsequence of the blueprint's scene ids, and a scene
for which either generation call failed permanently contributes no
`AssetPath` at all. -/
theorem produce_collect_manifest_invariants
    (bp : CreativeBlueprint) (topic_dir : String)
    (voiceOutcome : CreativeScene → Except GenError ℚ)
    (imageOutcome : CreativeScene → Except GenError String)
    (completed : List (Except GenError AssetPath))
    (hids : (bp.scenes.map (fun s => s.id)).Pairwise (· < ·))
    (hperm : completed.Perm (bp.scenes.map
      (fun s => process_scene s topic_dir (voiceOutcome s) (imageOutcome s)))) :
    ((produce_collect bp topic_dir completed).1.assets.map
        (fun a => a.scene_id)).Pairwise (· < ·) ∧
    ((produce_collect bp topic_dir completed).1.assets.map
        (fun a => a.scene_id)).Sublist (bp.scenes.map (fun s => s.id)) ∧
    (∀ s ∈ bp.scenes,
      ((∃ e, voiceOutcome s = .error e) ∨ (∃ e, imageOutcome s = .error e)) →
      ∀ a ∈ (produce_collect bp topic_dir completed).1.assets,
        a.scene_id ≠ s.id) := by
  have hassets : (produce_collect bp topic_dir completed).1.assets =
      (partition_results completed).1.mergeSort
        (fun a b => decide (a.scene_id ≤ b.scene_id)) := rfl
  have hpermO : (partition_results completed).1.Perm
      ((bp.scenes.map (fun s => process_scene s topic_dir (voiceOutcome s)
        (imageOutcome s))).filterMap Except.toOption) := by
    rw [partition_results_fst]
    exact hperm.filterMap _
  have hperm2 : (produce_collect bp topic_dir completed).1.assets.Perm
      ((bp.scenes.map (fun s => process_scene s topic_dir (voiceOutcome s)
        (imageOutcome s))).filterMap Except.toOption) := by
    rw [hassets]
    exact (List.mergeSort_perm _ _).trans hpermO
  have hsubO : (((bp.scenes.map (fun s => process_scene s topic_dir
      (voiceOutcome s) (imageOutcome s))).filterMap Except.toOption).map
        (fun a => a.scene_id)).Sublist (bp.scenes.map (fun s => s.id)) :=
    keys_filterMap_sublist bp.scenes topic_dir voiceOutcome imageOutcome
  have hltO : (((bp.scenes.map (fun s => process_scene s topic_dir
      (voiceOutcome s) (imageOutcome s))).filterMap Except.toOption).map
        (fun a => a.scene_id)).Pairwise (· < ·) :=
    List.Pairwise.sublist hsubO hids
  have hkeys_perm : ((produce_collect bp topic_dir completed).1.assets.map
      (fun a => a.scene_id)).Perm
      (((bp.scenes.map (fun s => process_scene s topic_dir (voiceOutcome s)
        (imageOutcome s))).filterMap Except.toOption).map
          (fun a => a.scene_id)) := hperm2.map _
  have hnodup : ((produce_collect bp topic_dir completed).1.assets.map
      (fun a => a.scene_id)).Nodup :=
    hkeys_perm.symm.nodup (hltO.imp Nat.ne_of_lt)
  have hsorted0 : ((partition_results completed).1.mergeSort
      (fun a b => decide (a.scene_id ≤ b.scene_id))).Pairwise
      (fun a b => decide (a.scene_id ≤ b.scene_id) = true) :=
    List.sorted_mergeSort
      (by intro a b c hab hbc; simp only [decide_eq_true_eq] at *; omega)
      (by intro a b; simp only [Bool.or_eq_true, decide_eq_true_eq]; omega) _
  have hsorted_le : ((produce_collect bp topic_dir completed).1.assets.map
      (fun a => a.scene_id)).Pairwise (· ≤ ·) := by
    rw [hassets]
    refine List.pairwise_map.mpr ?_
    exact hsorted0.imp (fun h => by simpa using h)
  have hne : ((produce_collect bp topic_dir completed).1.assets.map
      (fun a => a.scene_id)).Pairwise (· ≠ ·) := hnodup
  have hlt : ((produce_collect bp topic_dir completed).1.assets.map
      (fun a => a.scene_id)).Pairwise (· < ·) :=
    (hsorted_le.and hne).imp (fun h => lt_of_le_of_ne h.1 h.2)
  refine ⟨hlt, ?_, ?_⟩
  · exact sublist_of_subset_of_pairwise_lt hlt hids
      (fun x hx => hsubO.subset (hkeys_perm.subset hx))
  · intro s hs hfail a ha hEq
    have haO : a ∈ (bp.scenes.map (fun s => process_scene s topic_dir
        (voiceOutcome s) (imageOutcome s))).filterMap Except.toOption :=
      hperm2.subset ha
    rcases List.mem_filterMap.mp haO with ⟨r, hr, hrt⟩
    rcases List.mem_map.mp hr with ⟨s', hs', rfl⟩
    have hok : process_scene s' topic_dir (voiceOutcome s') (imageOutcome s') =
        .ok a := except_toOption_eq_some.mp hrt
    have hid : a.scene_id = s'.id := process_scene_ok_id _ _ _ _ _ hok
    have hss : s' = s :=
      List.inj_on_of_nodup_map (hids.imp Nat.ne_of_lt) hs' hs
        (by rw [← hid, hEq])
    subst hss
    exact process_scene_not_ok_of_error s' topic_dir (voiceOutcome s')
      (imageOutcome s') hfail a hok

/-- When the blueprint's scene ids ascend strictly, the sort step of the
fan-in is the identity and the manifest's scene ids are exactly the ids of
the scenes whose task succeeded, in blueprint order. -/
theorem produce_assets_keys (bp : CreativeBlueprint) (base_dir : String)
    (voiceOutcome : CreativeScene → Except GenError ℚ)
    (imageOutcome : CreativeScene → Except GenError String)
    (hids : (bp.scenes.map (fun s => s.id)).Pairwise (· < ·)) :
    (produce_assets bp base_dir voiceOutcome imageOutcome).1.assets.map
      (fun a => a.scene_id) =
    (bp.scenes.filter (fun s => (process_scene s (base_dir ++ "/" ++ bp.topic_id)
      (voiceOutcome s) (imageOutcome s)).toOption.isSome)).map
        (fun s => s.id) := by
  have hassets : (produce_assets bp base_dir voiceOutcome imageOutcome).1.assets =
      ((bp.scenes.map (fun s => process_scene s (base_dir ++ "/" ++ bp.topic_id)
        (voiceOutcome s) (imageOutcome s))).filterMap Except.toOption).mergeSort
        (fun a b => decide (a.scene_id ≤ b.scene_id)) := by
    show ((partition_results _).1).mergeSort _ = _
    rw [partition_results_fst]
  have hsubV := keys_filterMap_sublist bp.scenes (base_dir ++ "/" ++ bp.topic_id)
    voiceOutcome imageOutcome
  have hltV := List.Pairwise.sublist hsubV hids
  have hleV : ((bp.scenes.map (fun s => process_scene s
      (base_dir ++ "/" ++ bp.topic_id) (voiceOutcome s)
      (imageOutcome s))).filterMap Except.toOption).Pairwise
      (fun a b => decide (a.scene_id ≤ b.scene_id) = true) :=
    (List.pairwise_map.mp (hltV.imp Nat.le_of_lt)).imp
      (fun h => decide_eq_true h)
  rw [hassets, List.mergeSort_of_sorted hleV]
  exact keys_filterMap_eq_filter bp.scenes (base_dir ++ "/" ++ bp.topic_id)
    voiceOutcome imageOutcome

/-- Every scene contributes either one manifest asset or one logged failure. -/
theorem produce_assets_counts (bp : CreativeBlueprint) (base_dir : String)
    (voiceOutcome : CreativeScene → Except GenError ℚ)
    (imageOutcome : CreativeScene → Except GenError String) :
    (produce_assets bp base_dir voiceOutcome imageOutcome).1.assets.length +
      (produce_assets bp base_dir voiceOutcome imageOutcome).2.length =
      bp.scenes.length := by
  have h := partition_results_length (bp.scenes.map
    (fun s => process_scene s (base_dir ++ "/" ++ bp.topic_id)
      (voiceOutcome s) (imageOutcome s)))
  have h1 : (produce_assets bp base_dir voiceOutcome imageOutcome).1.assets.length =
      (partition_results (bp.scenes.map
        (fun s => process_scene s (base_dir ++ "/" ++ bp.topic_id)
          (voiceOutcome s) (imageOutcome s)))).1.length := by
    show (List.mergeSort _ _).length = _
    rw [List.length_mergeSort]
  have h2 : (produce_assets bp base_dir voiceOutcome imageOutcome).2 =
      (partition_results (bp.scenes.map
        (fun s => process_scene s (base_dir ++ "/" ++ bp.topic_id)
          (voiceOutcome s) (imageOutcome s)))).2 := rfl
  rw [h1, h2]
  simpa using h

/-- Removing one occurrence from a duplicate-free list by filtering shortens
it by exactly one. -/
theorem length_filter_ne_of_nodup_mem :
    ∀ {l : List Nat} {k : Nat}, l.Nodup → k ∈ l →
    (l.filter (fun i => i ≠ k)).length = l.length - 1 := by
  intro l
  induction l with
  | nil => intro k _ h; cases h
  | cons a t ih =>
    intro k hnd hk
    rcases List.mem_cons.mp hk with rfl | hk'
    · have hknot : k ∉ t := (List.nodup_cons.mp hnd).1
      have hft : t.filter (fun i => i ≠ k) = t :=
        List.filter_eq_self.mpr (fun x hx => by
          simp only [decide_eq_true_eq]
          rintro rfl
          exact hknot hx)
      rw [List.filter_cons_of_neg (by simp), hft]
      simp
    · have ha : a ≠ k := by
        rintro rfl
        exact (List.nodup_cons.mp hnd).1 hk'
      have ht := ih (List.nodup_cons.mp hnd).2 hk'
      have hlen : 1 ≤ t.length := List.length_pos.mpr (List.ne_nil_of_mem hk')
      rw [List.filter_cons_of_pos (by simp [ha])]
      simp only [List.length_cons, ht]
      omega

/-- C2: if exactly the scene with id `k` fails permanently while every other
scene of the blueprint succeeds, `produce_assets` returns normally with a
manifest of exactly `N - 1` assets — one per scene other than `k`, in order —
and the single failure is logged rather than aborting the producer. -/
theorem produce_assets_isolates_single_failure
    (bp : CreativeBlueprint) (base_dir : String)
    (voiceOutcome : CreativeScene → Except GenError ℚ)
    (imageOutcome : CreativeScene → Except GenError String) (k : Nat)
    (hids : (bp.scenes.map (fun s => s.id)).Pairwise (· < ·))
    (hk : k ∈ bp.scenes.map (fun s => s.id))
    (hfail : ∀ s ∈ bp.scenes, s.id = k → ∃ e,
      process_scene s (base_dir ++ "/" ++ bp.topic_id) (voiceOutcome s)
        (imageOutcome s) = .error e)
    (hok : ∀ s ∈ bp.scenes, s.id ≠ k → ∃ a,
      process_scene s (base_dir ++ "/" ++ bp.topic_id) (voiceOutcome s)
        (imageOutcome s) = .ok a) :
    (produce_assets bp base_dir voiceOutcome imageOutcome).1.assets.map
        (fun a => a.scene_id) =
      (bp.scenes.map (fun s => s.id)).filter (fun i => i ≠ k) ∧
    (produce_assets bp base_dir voiceOutcome imageOutcome).1.assets.length =
      bp.scenes.length - 1 ∧
    (produce_assets bp base_dir voiceOutcome imageOutcome).2.length = 1 := by
  have hkeys := produce_assets_keys bp base_dir voiceOutcome imageOutcome hids
  have hcong : bp.scenes.filter (fun s => (process_scene s
      (base_dir ++ "/" ++ bp.topic_id) (voiceOutcome s)
      (imageOutcome s)).toOption.isSome) =
      bp.scenes.filter (fun s => decide (s.id ≠ k)) :=
    List.filter_congr (fun s hs => by
      by_cases h : s.id = k
      · rcases hfail s hs h with ⟨e, he⟩
        simp [he, Except.toOption, h]
      · rcases hok s hs h with ⟨a, ha⟩
        simp [ha, Except.toOption, h])
  have hmapfilter : (bp.scenes.map (fun s => s.id)).filter (fun i => i ≠ k) =
      (bp.scenes.filter (fun s => decide (s.id ≠ k))).map (fun s => s.id) := by
    rw [List.filter_map]
    rfl
  have con1 : (produce_assets bp base_dir voiceOutcome imageOutcome).1.assets.map
      (fun a => a.scene_id) =
      (bp.scenes.map (fun s => s.id)).filter (fun i => i ≠ k) := by
    rw [hkeys, hcong, hmapfilter]
  have hnd : (bp.scenes.map (fun s => s.id)).Nodup := hids.imp Nat.ne_of_lt
  have hflen := length_filter_ne_of_nodup_mem hnd hk
  have con2 : (produce_assets bp base_dir voiceOutcome
      imageOutcome).1.assets.length = bp.scenes.length - 1 := by
    have h1 : (produce_assets bp base_dir voiceOutcome
        imageOutcome).1.assets.length =
        ((produce_assets bp base_dir voiceOutcome imageOutcome).1.assets.map
          (fun a => a.scene_id)).length := (List.length_map _ _).symm
    rw [h1, con1, hflen, List.length_map]
  have hcount := produce_assets_counts bp base_dir voiceOutcome imageOutcome
  have hpos : 0 < bp.scenes.length := by
    rcases List.mem_map.mp hk with ⟨s, hs, _⟩
    exact List.length_pos.mpr (List.ne_nil_of_mem hs)
  exact ⟨con1, con2, by omega⟩

/-- C3: for a blueprint whose scene ids are dense `1..N`, if every scene's
generation succeeds, the manifest has exactly `N` assets whose scene ids are
`1..N` in strictly ascending order. -/
theorem produce_assets_all_success_dense
    (bp : CreativeBlueprint) (base_dir : String)
    (voiceOutcome : CreativeScene → Except GenError ℚ)
    (imageOutcome : CreativeScene → Except GenError String) (N : Nat)
    (hids : bp.scenes.map (fun s => s.id) = List.range' 1 N)
    (hok : ∀ s ∈ bp.scenes, ∃ a,
      process_scene s (base_dir ++ "/" ++ bp.topic_id) (voiceOutcome s)
        (imageOutcome s) = .ok a) :
    (produce_assets bp base_dir voiceOutcome imageOutcome).1.assets.map
        (fun a => a.scene_id) = List.range' 1 N ∧
    (produce_assets bp base_dir voiceOutcome imageOutcome).1.assets.length =
      N := by
  have hlt : (bp.scenes.map (fun s => s.id)).Pairwise (· < ·) := by
    rw [hids]; exact List.pairwise_lt_range' 1 N
  have hkeys := produce_assets_keys bp base_dir voiceOutcome imageOutcome hlt
  have hfilter : bp.scenes.filter (fun s => (process_scene s
      (base_dir ++ "/" ++ bp.topic_id) (voiceOutcome s)
      (imageOutcome s)).toOption.isSome) = bp.scenes :=
    List.filter_eq_self.mpr (fun s hs => by
      rcases hok s hs with ⟨a, ha⟩
      simp [ha, Except.toOption])
  have con1 : (produce_assets bp base_dir voiceOutcome imageOutcome).1.assets.map
      (fun a => a.scene_id) = List.range' 1 N := by
    rw [hkeys, hfilter, hids]
  refine ⟨con1, ?_⟩
  have h1 : (produce_assets bp base_dir voiceOutcome
      imageOutcome).1.assets.length =
      ((produce_assets bp base_dir voiceOutcome imageOutcome).1.assets.map
        (fun a => a.scene_id)).length := (List.length_map _ _).symm
  rw [h1, con1, List.length_range']

/-- Witness for C1: two scenes with ids 1 < 2, both succeeding, with the
gathered results reaching the fan-in in reversed completion order; the
manifest's scene ids are strictly sorted. -/
theorem produce_collect_manifest_invariants_witness :
    ((produce_collect ⟨"t", "T", [⟨1, "n1", "v1"⟩, ⟨2, "n2", "v2"⟩]⟩ "d"
      (([⟨1, "n1", "v1"⟩, ⟨2, "n2", "v2"⟩].map (fun s => process_scene s "d"
        (Except.ok (3 : ℚ)) (Except.ok "p"))).reverse)).1.assets.map
        (fun a => a.scene_id)).Pairwise (· < ·) :=
  (produce_collect_manifest_invariants
    ⟨"t", "T", [⟨1, "n1", "v1"⟩, ⟨2, "n2", "v2"⟩]⟩ "d"
    (fun _ => Except.ok (3 : ℚ)) (fun _ => Except.ok "p") _
    (by decide) (List.reverse_perm _)).1

/-- Witness for C2: three scenes with ids 1, 2, 3 where only scene 2 fails;
the manifest keeps scenes 1 and 3, drops scene 2, and one failure is
logged. -/
theorem produce_assets_isolates_single_failure_witness :
    (produce_assets ⟨"t", "T", [⟨1, "a", "b"⟩, ⟨2, "c", "d"⟩, ⟨3, "e", "f"⟩]⟩
      "base"
      (fun s => if s.id = 2 then Except.error (GenError.mk "tts down")
        else Except.ok (3 : ℚ))
      (fun _ => Except.ok "img")).1.assets.map (fun a => a.scene_id) =
      ([⟨1, "a", "b"⟩, ⟨2, "c", "d"⟩, ⟨3, "e", "f"⟩].map
        (fun s : CreativeScene => s.id)).filter (fun i => i ≠ 2) ∧
    (produce_assets ⟨"t", "T", [⟨1, "a", "b"⟩, ⟨2, "c", "d"⟩, ⟨3, "e", "f"⟩]⟩
      "base"
      (fun s => if s.id = 2 then Except.error (GenError.mk "tts down")
        else Except.ok (3 : ℚ))
      (fun _ => Except.ok "img")).1.assets.length = 3 - 1 ∧
    (produce_assets ⟨"t", "T", [⟨1, "a", "b"⟩, ⟨2, "c", "d"⟩, ⟨3, "e", "f"⟩]⟩
      "base"
      (fun s => if s.id = 2 then Except.error (GenError.mk "tts down")
        else Except.ok (3 : ℚ))
      (fun _ => Except.ok "img")).2.length = 1 :=
  produce_assets_isolates_single_failure
    ⟨"t", "T", [⟨1, "a", "b"⟩, ⟨2, "c", "d"⟩, ⟨3, "e", "f"⟩]⟩ "base"
    (fun s => if s.id = 2 then Except.error (GenError.mk "tts down")
      else Except.ok (3 : ℚ))
    (fun _ => Except.ok "img") 2
    (by decide) (by decide)
    (by intro s hs h
        fin_cases hs
        · simp at h
        · exact ⟨GenError.mk "tts down", rfl⟩
        · simp at h)
    (by intro s hs h
        fin_cases hs
        · exact ⟨_, rfl⟩
        · simp at h
        · exact ⟨_, rfl⟩)

/-- Witness for C3: two scenes with dense ids 1, 2, both succeeding; the
manifest has exactly the scene ids 1, 2 in ascending order. -/
theorem produce_assets_all_success_dense_witness :
    (produce_assets ⟨"t", "T", [⟨1, "a", "b"⟩, ⟨2, "c", "d"⟩]⟩ "base"
      (fun _ => Except.ok (5 : ℚ)) (fun _ => Except.ok "img")).1.assets.map
        (fun a => a.scene_id) = List.range' 1 2 ∧
    (produce_assets ⟨"t", "T", [⟨1, "a", "b"⟩, ⟨2, "c", "d"⟩]⟩ "base"
      (fun _ => Except.ok (5 : ℚ)) (fun _ => Except.ok "img")).1.assets.length =
      2 :=
  produce_assets_all_success_dense
    ⟨"t", "T", [⟨1, "a", "b"⟩, ⟨2, "c", "d"⟩]⟩ "base"
    (fun _ => Except.ok (5 : ℚ)) (fun _ => Except.ok "img") 2
    (by decide)
    (by intro s hs
        fin_cases hs
        · exact ⟨_, rfl⟩
        · exact ⟨_, rfl⟩)

/-- An all-failure run leaves the manifest's asset list empty. -/
theorem produce_assets_assets_of_allfail (bp : CreativeBlueprint)
    (base_dir : String) (voiceOutcome : CreativeScene → Except GenError ℚ)
    (imageOutcome : CreativeScene → Except GenError String)
    (hfail : ∀ s ∈ bp.scenes, (process_scene s (base_dir ++ "/" ++ bp.topic_id)
      (voiceOutcome s) (imageOutcome s)).toOption = none) :
    (produce_assets bp base_dir voiceOutcome imageOutcome).1.assets = [] := by
  have hvalid : (partition_results (bp.scenes.map (fun s => process_scene s
      (base_dir ++ "/" ++ bp.topic_id) (voiceOutcome s) (imageOutcome s)))).1 =
      [] := by
    rw [partition_results_fst]
    refine List.filterMap_eq_nil_iff.mpr ?_
    intro r hr
    rcases List.mem_map.mp hr with ⟨s, hs, rfl⟩
    exact hfail s hs
  show (List.mergeSort _ _) = []
  rw [hvalid, List.mergeSort_nil]

/-- C7 counterexample: on a concrete blueprint where every scene fails,
`produce_assets` simply returns an ordinary `ProductionManifest` whose asset
list is empty (together with the per-scene logged failures) — the same
normal, non-fatal return shape as a partial success; no distinct fatal
signal exists in the producer. -/
theorem produce_assets_all_failure_counterexample :
    (produce_assets ⟨"t1", "T", [⟨1, "n", "v"⟩, ⟨2, "n", "v"⟩]⟩ "./assets"
      (fun _ => Except.error (GenError.mk "voice down"))
      (fun _ => Except.error (GenError.mk "img down"))).1 =
      { topic_id := "t1", base_dir := "./assets" ++ "/" ++ "t1",
        assets := [] } ∧
    (produce_assets ⟨"t1", "T", [⟨1, "n", "v"⟩, ⟨2, "n", "v"⟩]⟩ "./assets"
      (fun _ => Except.error (GenError.mk "voice down"))
      (fun _ => Except.error (GenError.mk "img down"))).2 =
      [GenError.mk "voice down", GenError.mk "voice down"] := by
  constructor
  · have ha := produce_assets_assets_of_allfail
      ⟨"t1", "T", [⟨1, "n", "v"⟩, ⟨2, "n", "v"⟩]⟩ "./assets"
      (fun _ => Except.error (GenError.mk "voice down"))
      (fun _ => Except.error (GenError.mk "img down"))
      (by intro s hs; fin_cases hs <;> rfl)
    have heta : (produce_assets ⟨"t1", "T", [⟨1, "n", "v"⟩, ⟨2, "n", "v"⟩]⟩
        "./assets" (fun _ => Except.error (GenError.mk "voice down"))
        (fun _ => Except.error (GenError.mk "img down"))).1 =
        ⟨(produce_assets ⟨"t1", "T", [⟨1, "n", "v"⟩, ⟨2, "n", "v"⟩]⟩
            "./assets" (fun _ => Except.error (GenError.mk "voice down"))
            (fun _ => Except.error (GenError.mk "img down"))).1.topic_id,
          (produce_assets ⟨"t1", "T", [⟨1, "n", "v"⟩, ⟨2, "n", "v"⟩]⟩
            "./assets" (fun _ => Except.error (GenError.mk "voice down"))
            (fun _ => Except.error (GenError.mk "img down"))).1.base_dir,
          (produce_assets ⟨"t1", "T", [⟨1, "n", "v"⟩, ⟨2, "n", "v"⟩]⟩
            "./assets" (fun _ => Except.error (GenError.mk "voice down"))
            (fun _ => Except.error (GenError.mk "img down"))).1.assets⟩ := rfl
    rw [heta, ha]
    rfl
  · rfl

/-- C7 amended: when zero scenes succeed, `produce_assets` returns an
ordinary empty manifest with every failure logged; the fatal, distinct
signal arises only downstream, when the Assembler rejects the resulting
empty manifest with the empty-manifest error before any composition work. -/
theorem produce_assets_all_failure_behaviour (bp : CreativeBlueprint)
    (base_dir output_dir : String)
    (voiceOutcome : CreativeScene → Except GenError ℚ)
    (imageOutcome : CreativeScene → Except GenError String)
    (compose : AssetPath → Bool) (write : Bool) (getsize : String → Nat)
    (hfail : ∀ s ∈ bp.scenes, (process_scene s (base_dir ++ "/" ++ bp.topic_id)
      (voiceOutcome s) (imageOutcome s)).toOption = none) :
    (produce_assets bp base_dir voiceOutcome imageOutcome).1.assets = [] ∧
    (produce_assets bp base_dir voiceOutcome imageOutcome).2.length =
      bp.scenes.length ∧
    assemble_video output_dir
      (produce_assets bp base_dir voiceOutcome imageOutcome).1 compose write
      getsize = (.error .emptyManifest, ⟨false, false⟩) := by
  have ha := produce_assets_assets_of_allfail bp base_dir voiceOutcome
    imageOutcome hfail
  refine ⟨ha, ?_, ?_⟩
  · have hc := produce_assets_counts bp base_dir voiceOutcome imageOutcome
    rw [ha] at hc
    simpa using hc
  · simp [assemble_video, ha]

/-- Witness for the amended C7: a concrete two-scene all-failure run yields
an empty manifest, two logged failures, and an assembly rejection. -/
theorem produce_assets_all_failure_behaviour_witness :
    (produce_assets ⟨"t2", "T", [⟨1, "n", "v"⟩, ⟨2, "n", "v"⟩]⟩ "./assets"
      (fun _ => Except.error (GenError.mk "e1"))
      (fun _ => Except.error (GenError.mk "e2"))).1.assets = [] ∧
    (produce_assets ⟨"t2", "T", [⟨1, "n", "v"⟩, ⟨2, "n", "v"⟩]⟩ "./assets"
      (fun _ => Except.error (GenError.mk "e1"))
      (fun _ => Except.error (GenError.mk "e2"))).2.length = 2 ∧
    assemble_video "./outputs"
      (produce_assets ⟨"t2", "T", [⟨1, "n", "v"⟩, ⟨2, "n", "v"⟩]⟩ "./assets"
        (fun _ => Except.error (GenError.mk "e1"))
        (fun _ => Except.error (GenError.mk "e2"))).1
      (fun _ => true) true (fun _ => 0) =
      (.error .emptyManifest, ⟨false, false⟩) :=
  produce_assets_all_failure_behaviour
    ⟨"t2", "T", [⟨1, "n", "v"⟩, ⟨2, "n", "v"⟩]⟩ "./assets" "./outputs"
    (fun _ => Except.error (GenError.mk "e1"))
    (fun _ => Except.error (GenError.mk "e2"))
    (fun _ => true) true (fun _ => 0)
    (by intro s hs; fin_cases hs <;> rfl)

/-! ### Claim theorems for the assembler -/

/-- C6: assembling a manifest with zero assets fails immediately with the
empty-manifest error (`ValueError("Empty asset list")`, the spec's
`EmptyManifestError` kind), before any composition work is dispatched to the
render worker, and no output file is produced. -/
theorem assemble_video_empty_manifest (output_dir : String)
    (m : ProductionManifest) (compose : AssetPath → Bool) (write : Bool)
    (getsize : String → Nat) (h : m.assets = []) :
    assemble_video output_dir m compose write getsize =
      (.error .emptyManifest, ⟨false, false⟩) := by
  simp [assemble_video, h]

/-- Witness for C6: a concrete empty manifest is rejected with no render
dispatch and no file written. -/
theorem assemble_video_empty_manifest_witness :
    assemble_video "./outputs" ⟨"t", "b", []⟩ (fun _ => true) true
      (fun _ => 7) = (.error .emptyManifest, ⟨false, false⟩) :=
  assemble_video_empty_manifest "./outputs" ⟨"t", "b", []⟩ (fun _ => true) true
    (fun _ => 7) rfl

/-- Shape of every successful assembly: the output descriptor's fields are
computed from the manifest and the written file. -/
theorem assemble_video_ok_shape (output_dir : String)
    (m : ProductionManifest) (compose : AssetPath → Bool) (write : Bool)
    (getsize : String → Nat) (out : VideoOutput) (tr : AssembleTrace)
    (h : assemble_video output_dir m compose write getsize = (.ok out, tr)) :
    out = { topic_id := m.topic_id,
            file_path := output_dir ++ "/" ++ m.topic_id ++ "_final.mp4",
            duration := (m.assets.map (fun a => a.duration)).sum,
            file_size_mb :=
              ((getsize (output_dir ++ "/" ++ m.topic_id ++ "_final.mp4") : ℚ))
                / (1024 * 1024) } := by
  unfold assemble_video at h
  by_cases he : m.assets.isEmpty
  · rw [if_pos he] at h
    simp at h
  · rw [if_neg he] at h
    unfold render_sync at h
    by_cases hc : (m.assets.filter compose).isEmpty
    · rw [if_pos hc] at h
      simp at h
    · rw [if_neg hc] at h
      by_cases hw : write
      · rw [if_pos hw] at h
        simp only [Prod.mk.injEq, Except.ok.injEq] at h
        exact h.1.symm
      · rw [if_neg hw] at h
        simp at h

/-- C8: for every manifest for which assembly succeeds, the returned output's
`duration` equals the sum of the manifest's per-asset input durations (not a
value measured from the encoded file). -/
theorem assemble_video_duration_sum (output_dir : String)
    (m : ProductionManifest) (compose : AssetPath → Bool) (write : Bool)
    (getsize : String → Nat) (out : VideoOutput) (tr : AssembleTrace)
    (h : assemble_video output_dir m compose write getsize = (.ok out, tr)) :
    out.duration = (m.assets.map (fun a => a.duration)).sum := by
  rw [assemble_video_ok_shape output_dir m compose write getsize out tr h]

/-- Witness for C8: assets with durations 3.0, 4.5, 2.0 assemble to an output
whose duration is their sum, 9.5. -/
theorem assemble_video_duration_sum_witness :
    ({ topic_id := "t", file_path := "o" ++ "/" ++ "t" ++ "_final.mp4",
       duration := (([⟨1, "i1", "a1", 3⟩, ⟨2, "i2", "a2", 9/2⟩,
         ⟨3, "i3", "a3", 2⟩] : List AssetPath).map (fun a => a.duration)).sum,
       file_size_mb := (((1000 : Nat) : ℚ)) / (1024 * 1024) } :
        VideoOutput).duration =
      (([⟨1, "i1", "a1", 3⟩, ⟨2, "i2", "a2", 9/2⟩, ⟨3, "i3", "a3", 2⟩] :
        List AssetPath).map (fun a => a.duration)).sum ∧
    (([⟨1, "i1", "a1", 3⟩, ⟨2, "i2", "a2", 9/2⟩, ⟨3, "i3", "a3", 2⟩] :
      List AssetPath).map (fun a => a.duration)).sum = (19 : ℚ) / 2 :=
  ⟨assemble_video_duration_sum "o"
      ⟨"t", "b", [⟨1, "i1", "a1", 3⟩, ⟨2, "i2", "a2", 9/2⟩, ⟨3, "i3", "a3", 2⟩]⟩
      (fun _ => true) true (fun _ => 1000) _ ⟨true, true⟩ rfl,
   by norm_num [List.map_cons, List.sum_cons]⟩

/-- C9 counterexample: a successful assembly over a written file of
2097152 bytes yields a size field of `2` (megabytes), not `2097152`: the
descriptor's size field does not equal the file's size in bytes. -/
theorem assemble_video_file_size_counterexample :
    assemble_video "o" ⟨"t", "b", [⟨1, "i", "a", 3⟩]⟩ (fun _ => true) true
      (fun _ => 2097152) =
      (.ok { topic_id := "t", file_path := "o" ++ "/" ++ "t" ++ "_final.mp4",
             duration := 3, file_size_mb := 2 }, ⟨true, true⟩) ∧
    (2 : ℚ) ≠ 2097152 := by
  constructor
  · have h0 : assemble_video "o" ⟨"t", "b", [⟨1, "i", "a", 3⟩]⟩
        (fun _ => true) true (fun _ => 2097152) =
        (.ok { topic_id := "t",
               file_path := "o" ++ "/" ++ "t" ++ "_final.mp4",
               duration := (([⟨1, "i", "a", 3⟩] : List AssetPath).map
                 (fun a => a.duration)).sum,
               file_size_mb := (((2097152 : Nat) : ℚ)) / (1024 * 1024) },
         ⟨true, true⟩) := rfl
    rw [h0]
    simp only [Prod.mk.injEq, Except.ok.injEq, VideoOutput.mk.injEq]
    norm_num [List.map_cons, List.sum_cons]
  · norm_num

/-- C9 amended: for every successful assembly, the output descriptor's size
field `file_size_mb` equals the size of the written output file in bytes, as
obtained by inspecting that file, divided by 1024 × 1024 (i.e. the size in
megabytes, not bytes). -/
theorem assemble_video_file_size_mb (output_dir : String)
    (m : ProductionManifest) (compose : AssetPath → Bool) (write : Bool)
    (getsize : String → Nat) (out : VideoOutput) (tr : AssembleTrace)
    (h : assemble_video output_dir m compose write getsize = (.ok out, tr)) :
    out.file_size_mb = ((getsize out.file_path : ℚ)) / (1024 * 1024) := by
  rw [assemble_video_ok_shape output_dir m compose write getsize out tr h]

/-- Witness for the amended C9: a written file of 1048576 bytes yields a
size field of 1048576 / 1024² (= 1 megabyte). -/
theorem assemble_video_file_size_mb_witness :
    ({ topic_id := "t", file_path := "o" ++ "/" ++ "t" ++ "_final.mp4",
       duration := (([⟨1, "i", "a", 3⟩] : List AssetPath).map
         (fun a => a.duration)).sum,
       file_size_mb := (((1048576 : Nat) : ℚ)) / (1024 * 1024) } :
        VideoOutput).file_size_mb =
      ((((fun _ => (1048576 : Nat)) ("o" ++ "/" ++ "t" ++ "_final.mp4") :
        Nat) : ℚ)) / (1024 * 1024) :=
  assemble_video_file_size_mb "o" ⟨"t", "b", [⟨1, "i", "a", 3⟩]⟩
    (fun _ => true) true (fun _ => 1048576) _ ⟨true, true⟩ rfl

end ZpUicSf
